import Mathlib

/-!
Verification development for the `advanced_mcp_server.py` tool-dispatch server
(repository `hezronkimutai/mcp_server`).

The dispatch core is shallowly embedded: Python dicts of raw arguments become
association lists of `PyValue`, the SQLite-backed local store becomes a `Store`
of three in-memory row lists, timestamps become integers (seconds), and every
external collaborator (HTTP fetch + HTML parse, pandas/matplotlib, psutil, the
raw SQL executor, the filesystem) is abstracted into an `Env` of oracle
functions, exactly at the boundary at which the source calls into the external
library.  Python exceptions that reach the dispatcher's `try` are modelled as
the `Except String` error channel; each handler body catches its own faults in
the source, so handler models are total functions.
-/

/-- JSON values as produced by the server's `json.dumps(..., indent=2)` calls.
`num` carries exact rationals standing for Python ints/floats (int-valued
rationals print like Python ints; float `repr` formatting is abstracted). -/
inductive Json where
  | str (s : String)
  | num (n : Int)
  | rat (q : Rat)
  | bool (b : Bool)
  | null
  | arr (xs : List Json)
  | obj (kvs : List (String × Json))
deriving Repr

/-- Hex digit for `\uXXXX` escapes. -/
def hexDigit (n : Nat) : Char :=
  if n < 10 then Char.ofNat (48 + n) else Char.ofNat (87 + n % 16)

/-- Four-digit hex rendering of a code point (as `json.dumps` emits, with
`ensure_ascii=True`; astral plane abstracted to the low 16 bits). -/
def hex4 (n : Nat) : String :=
  String.mk [hexDigit (n / 4096 % 16), hexDigit (n / 256 % 16),
             hexDigit (n / 16 % 16), hexDigit (n % 16)]

/-- Escaping of one character inside a JSON string literal, following
`json.dumps` with its default `ensure_ascii=True`. -/
def jsonEscapeChar (c : Char) : String :=
  if c = '"' then "\\\""
  else if c = '\\' then "\\\\"
  else if c = '\n' then "\\n"
  else if c = '\t' then "\\t"
  else if c = '\r' then "\\r"
  else if c.toNat < 32 ∨ c.toNat ≥ 127 then "\\u" ++ hex4 c.toNat
  else String.mk [c]

/-- A JSON string literal with surrounding quotes. -/
def jsonQuote (s : String) : String :=
  "\"" ++ String.join (s.toList.map jsonEscapeChar) ++ "\""

/-- `2*lvl` spaces, the indentation unit of `json.dumps(..., indent=2)`. -/
def jsonIndent (lvl : Nat) : String :=
  String.mk (List.replicate (2 * lvl) ' ')

/-- Decimal-looking rendering for the rationals standing in for Python floats.
Exact `repr(float)` formatting is an external concern and is abstracted: the
value is printed as `num/den` when not integral. No claim inspects it. -/
def ratStr (q : Rat) : String :=
  if q.den = 1 then toString q.num else toString q.num ++ "/" ++ toString q.den

mutual

/-- `json.dumps(v, indent=2)` at nesting level `lvl`. -/
def jsonDumpTo (lvl : Nat) : Json → String
  | .str s => jsonQuote s
  | .num n => toString n
  | .rat q => ratStr q
  | .bool b => if b then "true" else "false"
  | .null => "null"
  | .arr [] => "[]"
  | .arr (x :: xs) =>
      "[\n" ++ jsonDumpItems (lvl + 1) (x :: xs) ++ "\n" ++ jsonIndent lvl ++ "]"
  | .obj [] => "\x7b\x7d"
  | .obj (kv :: kvs) =>
      "\x7b\n" ++ jsonDumpFields (lvl + 1) (kv :: kvs) ++ "\n" ++ jsonIndent lvl ++ "\x7d"

/-- Comma-and-newline separated array items. -/
def jsonDumpItems (lvl : Nat) : List Json → String
  | [] => ""
  | [x] => jsonIndent lvl ++ jsonDumpTo lvl x
  | x :: y :: xs =>
      jsonIndent lvl ++ jsonDumpTo lvl x ++ ",\n" ++ jsonDumpItems lvl (y :: xs)

/-- Comma-and-newline separated object fields (`"key": value`). -/
def jsonDumpFields (lvl : Nat) : List (String × Json) → String
  | [] => ""
  | [kv] => jsonIndent lvl ++ jsonQuote kv.1 ++ ": " ++ jsonDumpTo lvl kv.2
  | kv :: kv2 :: kvs =>
      jsonIndent lvl ++ jsonQuote kv.1 ++ ": " ++ jsonDumpTo lvl kv.2 ++ ",\n" ++
        jsonDumpFields lvl (kv2 :: kvs)

end

/-- `json.dumps(v, indent=2)` as called throughout the server. -/
def jsonDumps (v : Json) : String := jsonDumpTo 0 v

/-- Raw argument values as they arrive in the transport's argument bag.
Nested containers beyond one level of string-valued dicts are not needed by
any registered tool's schema and are omitted from the modelled fragment. -/
inductive PyValue where
  | str (s : String)
  | int (n : Int)
  | bool (b : Bool)
  | dict (kvs : List (String × String))
  | none
deriving DecidableEq, Repr

/-- Python truthiness, as used by `if save_to_db:`, `if not pattern:`, etc. -/
def truthy : PyValue → Bool
  | .str s => s ≠ ""
  | .int n => n ≠ 0
  | .bool b => b
  | .dict kvs => kvs ≠ []
  | .none => false

/-- `str(v)` as used in the server's f-strings. -/
def pyStr : PyValue → String
  | .str s => s
  | .int n => toString n
  | .bool b => if b then "True" else "False"
  | .dict kvs =>
      "\x7b" ++ String.intercalate ", "
        (kvs.map (fun kv => "'" ++ kv.1 ++ "': '" ++ kv.2 ++ "'")) ++ "\x7d"
  | .none => "None"

/-- The JSON value `json.dumps` would emit for a raw argument value placed in a
result dict (as `file_operations` does with `operation` and `path`). -/
def pyToJson : PyValue → Json
  | .str s => .str s
  | .int n => .num n
  | .bool b => .bool b
  | .dict kvs => .obj (kvs.map (fun kv => (kv.1, Json.str kv.2)))
  | .none => .null

/-- Integer reading of a raw value where the source does arithmetic with it
(`timedelta(hours=...)`, loop deadlines); non-numeric values are abstracted to
0 (the source would raise inside the handler's own try/except). -/
def asIntD : PyValue → Int
  | .int n => n
  | .bool b => if b then 1 else 0
  | _ => 0

/-- `needle` is a contiguous run of `hay` (Python's `needle in hay` on lists of
characters; empty needle matches). -/
def listPrefixOfB : List Char → List Char → Bool
  | [], _ => true
  | _ :: _, [] => false
  | a :: as, b :: bs => a == b && listPrefixOfB as bs

/-- Substring search walking the haystack. -/
def listInfixOfB (needle : List Char) : List Char → Bool
  | [] => needle.isEmpty
  | c :: t => listPrefixOfB needle (c :: t) || listInfixOfB needle t

/-- Python's `needle in hay` on strings. -/
def containsSub (hay needle : String) : Bool :=
  listInfixOfB needle.toList hay.toList

/-- Python's `s.upper()` (ASCII, which covers all modelled texts). -/
def strUpper (s : String) : String := String.mk (s.toList.map Char.toUpper)

/-- Python's `s.lower()` (ASCII). -/
def strLower (s : String) : String := String.mk (s.toList.map Char.toLower)

/-- Python's `s.strip()`. -/
def strTrim (s : String) : String :=
  String.mk (((s.toList.dropWhile Char.isWhitespace).reverse.dropWhile
    Char.isWhitespace).reverse)

/-- Python's `s.startswith(pre)`. -/
def strStartsWith (s pre : String) : Bool := listPrefixOfB pre.toList s.toList

/-- Python's `s.endswith(suf)`. -/
def strEndsWith (s suf : String) : Bool :=
  listPrefixOfB suf.toList.reverse s.toList.reverse

/-- Split a character list at separator positions, keeping empty chunks. -/
def splitListBy (p : Char → Bool) : List Char → List (List Char)
  | [] => [[]]
  | c :: t =>
    if p c then [] :: splitListBy p t
    else
      match splitListBy p t with
      | h :: r => (c :: h) :: r
      | [] => [[c]]

/-- Split a string at every separator character, keeping empty chunks. -/
def strSplitBy (p : Char → Bool) (s : String) : List String :=
  (splitListBy p s.toList).map String.mk

/-- Whether the bag binds a key (`k in arguments`). -/
def hasKey (args : List (String × PyValue)) (k : String) : Bool :=
  args.any (fun kv => kv.1 == k)

/-- Value bound to `k` in the bag, or the declared default `d`. -/
def getArg (args : List (String × PyValue)) (k : String) (d : PyValue) : PyValue :=
  match args.find? (fun kv => kv.1 == k) with
  | some kv => kv.2
  | Option.none => d

/-- A declared Python parameter: name and optional default (`Option.none` for
a required parameter). -/
abbrev ParamSpec := List (String × Option PyValue)

/-- First key of the bag that is not a declared parameter name — the keyword
CPython's binder rejects when the callee has no `**kwargs` slot. -/
def findUnexpected (params : List String) (args : List (String × PyValue)) : Option String :=
  (args.find? (fun kv => ¬ params.contains kv.1)).map (fun kv => kv.1)

/-- Names of required parameters the bag does not bind, in declaration order
(the order CPython lists them in the `TypeError` message). -/
def missingRequired (params : ParamSpec) (args : List (String × PyValue)) : List String :=
  (params.filter (fun p => p.2.isNone && ¬ hasKey args p.1)).map (fun p => p.1)

/-- CPython's message for an unexpected keyword argument. -/
def unexpectedKwMsg (fn k : String) : String :=
  fn ++ "() got an unexpected keyword argument '" ++ k ++ "'"

/-- Quoted-name list as CPython joins it: `'a'`, `'a' and 'b'`,
`'a', 'b', and 'c'`. -/
def joinQuotedAnd : List String → String
  | [] => ""
  | [a] => "'" ++ a ++ "'"
  | [a, b] => "'" ++ a ++ "' and '" ++ b ++ "'"
  | a :: b :: c :: rest =>
      "'" ++ a ++ "', " ++ joinQuotedAnd (b :: c :: rest)

/-- CPython's message for missing required arguments. -/
def missingArgsMsg (fn : String) (names : List String) : String :=
  match names with
  | [n] => fn ++ "() missing 1 required positional argument: '" ++ n ++ "'"
  | ns => fn ++ "() missing " ++ toString ns.length ++
      " required positional arguments: " ++ joinQuotedAnd ns

/-- Binding `f(**arguments)` against the declared parameters: the `TypeError`
message CPython raises, if any (unexpected keyword first, then missing
required arguments), else `Option.none` when the call binds. -/
def bindError (fn : String) (params : ParamSpec) (args : List (String × PyValue)) : Option String :=
  match findUnexpected (params.map (fun p => p.1)) args with
  | some k => some (unexpectedKwMsg fn k)
  | Option.none =>
      match missingRequired params args with
      | [] => Option.none
      | ms => some (missingArgsMsg fn ms)

/-- Row of the `web_scrapes` table (`init_database`, lines 65-73). -/
structure ScrapeRow where
  id : Nat
  url : String
  title : String
  content : String
  scraped_at : Int
deriving DecidableEq, Repr

/-- Row of the `system_metrics` table (`init_database`, lines 75-83).
Percentages are exact rationals standing for the source's floats. -/
structure MetricRow where
  id : Nat
  cpu_percent : Rat
  memory_percent : Rat
  disk_usage : Rat
  recorded_at : Int
deriving DecidableEq, Repr

/-- Row of the `api_cache` table (`init_database`, lines 85-92). -/
structure CacheRow where
  id : Nat
  endpoint : String
  response_data : String
  cached_at : Int
deriving DecidableEq, Repr

/-- The SQLite-backed local store: three independent row lists in insertion
(rowid) order. -/
structure Store where
  web_scrapes : List ScrapeRow
  system_metrics : List MetricRow
  api_cache : List CacheRow
deriving DecidableEq, Repr

/-- `INSERT INTO web_scrapes (url, title, content) VALUES (?, ?, ?)` with
`scraped_at DEFAULT CURRENT_TIMESTAMP`; ids are 1-based autoincrement. -/
def Store.insertScrape (st : Store) (url title content : String) (now : Int) : Store :=
  { st with web_scrapes :=
      st.web_scrapes ++ [⟨st.web_scrapes.length + 1, url, title, content, now⟩] }

/-- `INSERT INTO system_metrics (cpu_percent, memory_percent, disk_usage)`. -/
def Store.insertMetric (st : Store) (cpu mem disk : Rat) (now : Int) : Store :=
  { st with system_metrics :=
      st.system_metrics ++ [⟨st.system_metrics.length + 1, cpu, mem, disk, now⟩] }

/-- `INSERT INTO api_cache (endpoint, response_data) VALUES (?, ?)` performed
by `api_integration` (lines 700-707) after a cacheable successful GET. -/
def cacheInsert (st : Store) (endpoint response_data : String) (now : Int) : Store :=
  { st with api_cache :=
      st.api_cache ++ [⟨st.api_cache.length + 1, endpoint, response_data, now⟩] }

/-- `SELECT response_data, cached_at FROM api_cache WHERE endpoint = ? AND
cached_at > ?` followed by `fetchone()` (`api_integration`, lines 659-66):
first row in rowid order matching the endpoint and strictly newer than the
cutoff `now - timedelta(hours=cache_duration_hours)`. -/
def cacheLookup (st : Store) (endpoint : String) (cutoff : Int) : Option CacheRow :=
  st.api_cache.find? (fun r => r.endpoint == endpoint && cutoff < r.cached_at)

/-- What the scrape handler extracts from a fetched page; everything after the
HTTP status is BeautifulSoup territory (external collaborator) and arrives
pre-parsed from the environment: the `<title>` text (stripped), the
whitespace-normalized visible text, and the link/image attribute pairs. -/
structure PageData where
  status : Nat
  title : Option String
  cleanText : String
  links : List (String × String)
  images : List (String × String)
deriving DecidableEq, Repr

/-- An HTTP response as seen by `api_integration`. -/
structure HttpResp where
  status : Nat
  text : String
  headers : List (String × String)
deriving DecidableEq, Repr

/-- Outcome of `cursor.execute` on a raw SQL string (`database_query`):
fetched rows with their column names, and the `rowcount` for writes. -/
structure SqlOutcome where
  columns : List String
  rows : List (List Json)
  rowcount : Int

/-- What `analyze_data` reads out of a parsed CSV: shape, column names, the
numeric / datetime column subsets, and the pandas-computed statistics blobs
(external collaborator, abstracted as opaque JSON values). -/
structure CsvInfo where
  nrows : Nat
  columns : List String
  numericCols : List String
  datetimeCols : List String
  canParseDate : String → Bool
  describeJson : Json
  dtypesJson : Json
  missingJson : Json
  corrJson : Json
  colStats : String → Json
  dateRangeStart : String → String
  dateRangeEnd : String → String

/-- A filesystem entry met during `Path.rglob("*")`, with the attributes the
handler reads (`stat`, `suffix`, `name`, text content). -/
structure FileInfo where
  path : String
  name : String
  suffix : String
  size : Nat
  mtimeIso : String
  content : String
  lines : List String
deriving DecidableEq, Repr

/-- `rglob` yields files and directories. -/
inductive FsEntry where
  | file (info : FileInfo)
  | dir (path : String)
deriving DecidableEq, Repr

/-- Mutating filesystem actions `file_operations` can perform, recorded as an
effect log (`shutil.copy2`, `shutil.copytree`, `Path.unlink`). -/
inductive FsEffect where
  | copyFile (src dst : String)
  | copyTree (src dst : String)
  | unlink (path : String)
deriving DecidableEq, Repr

/-- One psutil sampling round of the monitor loop (cpu/memory/disk percents
plus the derived free-space figures and the iteration's ISO timestamp). -/
structure SampleRound where
  cpu : Rat
  memPercent : Rat
  memAvailGb : Rat
  diskPercent : Rat
  diskFreeGb : Rat
  tsIso : String
deriving DecidableEq, Repr

/-- The environment of external collaborators: HTTP, the raw SQL engine, the
filesystem, psutil, pandas/matplotlib renderings, and the wall clock.  Each
field sits exactly where the source calls out of the dispatch core. -/
structure Env where
  /-- `session.get(url)` + BeautifulSoup parse, by URL. -/
  page : String → PageData
  /-- `session.request(method, url, ...)`; headers/body influence abstracted. -/
  request : String → String → HttpResp
  /-- `json.loads` on a response body, when it parses. -/
  parseJson : String → Option Json
  /-- `cursor.execute(query)` on the raw pass-through path; `Except.error` is
  a raised `sqlite3` error. -/
  sql : String → Except String SqlOutcome
  /-- Wall clock, seconds. -/
  now : Int
  /-- `datetime.now().isoformat()`. -/
  nowIso : String
  /-- `datetime.now().strftime("%Y%m%d_%H%M%S")`. -/
  nowStamp : String
  /-- `self.db_path` (a `tempfile.mktemp` name). -/
  dbPath : String
  /-- `os.path.exists`. -/
  fileExists : String → Bool
  /-- `pd.read_csv` (after the existence check); `Except.error` is a raised
  pandas parse failure. -/
  csv : String → Except String CsvInfo
  /-- Bytes of a matplotlib figure saved to a temp PNG, by chart kind and
  subject. -/
  chart : String → String → List Nat
  /-- `Path(p).is_file()`. -/
  isFile : String → Bool
  /-- `Path(p).is_dir()`. -/
  isDir : String → Bool
  /-- Attributes of a file path. -/
  fileInfo : String → FileInfo
  /-- `Path(p).rglob("*")` in traversal order. -/
  rglob : String → List FsEntry
  /-- Whether `Path.unlink` succeeds (the cleanup loop ignores failures). -/
  unlinkOk : String → Bool
  /-- The stream of psutil sampling rounds the monitor loop would observe. -/
  samples : List SampleRound
  /-- Number of iterations of the wall-clock-bounded monitor loop for a given
  `duration_minutes` and `interval_seconds` (real time abstracted). -/
  sampleCount : Int → Int → Nat

/-- One unit of tool output: `TextContent` or `ImageContent` (raw PNG bytes
with their MIME type), per `mcp.types`. -/
inductive ContentBlock where
  | text (s : String)
  | image (data : List Nat) (mimeType : String)
deriving DecidableEq, Repr

mutual

/-- `json.dumps(v)` without `indent` (default separators), used when caching
a response body into `api_cache` (line 704). -/
def jsonDumpC : Json → String
  | .str s => jsonQuote s
  | .num n => toString n
  | .rat q => ratStr q
  | .bool b => if b then "true" else "false"
  | .null => "null"
  | .arr xs => "[" ++ jsonDumpItemsC xs ++ "]"
  | .obj kvs => "\x7b" ++ jsonDumpFieldsC kvs ++ "\x7d"

/-- Compact array items, `", "`-separated. -/
def jsonDumpItemsC : List Json → String
  | [] => ""
  | [x] => jsonDumpC x
  | x :: y :: xs => jsonDumpC x ++ ", " ++ jsonDumpItemsC (y :: xs)

/-- Compact object fields, `", "`-separated. -/
def jsonDumpFieldsC : List (String × Json) → String
  | [] => ""
  | [kv] => jsonQuote kv.1 ++ ": " ++ jsonDumpC kv.2
  | kv :: kv2 :: kvs => jsonQuote kv.1 ++ ": " ++ jsonDumpC kv.2 ++ ", " ++
      jsonDumpFieldsC (kv2 :: kvs)

end

/-- Python's `s.split()`: maximal whitespace-separated words. -/
def pyWords (s : String) : List String :=
  (strSplitBy Char.isWhitespace s).filter (fun w => w ≠ "")

/-- Python's `s.splitlines()` for newline-terminated text (`\n` only; other
line terminators do not occur in the modelled inputs). -/
def pySplitlines (s : String) : List String :=
  if s = "" then [] else
    let parts := strSplitBy (fun c => c == '\n') s
    if parts.getLast? = some "" then parts.dropLast else parts

/-- Python's `round(q, 2)`: round to 2 decimal places, ties to even. -/
def pyRound2 (q : Rat) : Rat :=
  let s := q * 100
  let f : Int := ⌊s⌋
  let r := s - (f : Rat)
  let n : Int :=
    if r > 1 / 2 then f + 1
    else if r < 1 / 2 then f
    else if f % 2 = 0 then f else f + 1
  (n : Rat) / 100

/-- Sum of a list of rationals (`sum(values)`). -/
def ratSum (xs : List Rat) : Rat := xs.foldl (fun a b => a + b) 0

/-- `max(values)` on a nonempty list (0 on empty, unreachable in use). -/
def listMaxD : List Rat → Rat
  | [] => 0
  | x :: t => t.foldl max x

/-- `min(values)` on a nonempty list (0 on empty, unreachable in use). -/
def listMinD : List Rat → Rat
  | [] => 0
  | x :: t => t.foldl min x

/-- Descending insertion into a list sorted by `key` descending (stable). -/
def insertDescBy (key : α → Int) (x : α) : List α → List α
  | [] => [x]
  | y :: ys => if key y ≤ key x then x :: y :: ys else y :: insertDescBy key x ys

/-- `ORDER BY <key> DESC` over an in-memory table. -/
def sortDescBy (key : α → Int) : List α → List α
  | [] => []
  | x :: xs => insertDescBy key x (sortDescBy key xs)

/-- `scrape_website` (lines 236-305): fetch, parse, summarize, optionally
persist.  A non-200 response returns a single failure Text block before any
store write; the handler's own `except` path (network fault) is part of the
`Env.page` abstraction — the oracle always yields a response, so the modelled
paths are the non-200 return and the success path. -/
def scrape_website (env : Env) (store : Store)
    (url extract_links extract_images save_to_db : PyValue) :
    List ContentBlock × Store :=
  let u := pyStr url
  let p := env.page u
  if p.status ≠ 200 then
    ([.text ("Failed to fetch " ++ u ++ ": HTTP " ++ toString p.status)], store)
  else
    let title_text := p.title.getD "No title found"
    let clean := p.cleanText
    let preview := if clean.length > 500 then String.mk (clean.toList.take 500) ++ "..." else clean
    let base : List (String × Json) :=
      [("url", pyToJson url), ("title", .str title_text),
       ("content_length", .num clean.length),
       ("word_count", .num (pyWords clean).length),
       ("content_preview", .str preview)]
    let r1 := if truthy extract_links then
        base ++ [("links", .arr ((p.links.take 20).map (fun l =>
          Json.obj [("text", .str l.1), ("href", .str l.2)])))]
      else base
    let r2 := if truthy extract_images then
        r1 ++ [("images", .arr ((p.images.take 10).map (fun im =>
          Json.obj [("alt", .str im.1), ("src", .str im.2)])))]
      else r1
    if truthy save_to_db then
      ([.text (jsonDumps (.obj (r2 ++ [("saved_to_db", .bool true)])))],
       store.insertScrape u title_text clean env.now)
    else
      ([.text (jsonDumps (.obj r2))], store)

/-- The four analysis branches of `analyze_data` (lines 326-449), producing
the extended `analysis_result` field list and the accumulated visualization
images of `results`; an unrecognized `analysis_type` matches no branch and
leaves both untouched. -/
def analysisBranch (env : Env) (df : CsvInfo) (fp : String)
    (analysis_type create_visualization : PyValue) :
    List (String × Json) × List ContentBlock :=
  let base : List (String × Json) :=
    [("file", .str fp),
     ("analysis_type", pyToJson analysis_type),
     ("rows", .num df.nrows),
     ("columns", .num df.columns.length),
     ("column_names", .arr (df.columns.map Json.str))]
  if analysis_type = PyValue.str "summary" then
    (base ++ [("summary", df.describeJson), ("data_types", df.dtypesJson),
              ("missing_values", df.missingJson)], [])
  else if analysis_type = PyValue.str "correlation" then
    if df.numericCols.length > 1 then
      (base ++ [("correlation_matrix", df.corrJson)],
       if truthy create_visualization then
         [.image (env.chart "correlation" fp) "image/png"] else [])
    else
      (base ++ [("error", .str "Not enough numeric columns for correlation analysis")], [])
  else if analysis_type = PyValue.str "distribution" then
    if df.numericCols.length > 0 then
      (base ++ (df.numericCols.take 3).map (fun c =>
         (c ++ "_distribution", df.colStats c)),
       if truthy create_visualization then
         [.image (env.chart "distribution" fp) "image/png"] else [])
    else (base, [])
  else if analysis_type = PyValue.str "trends" then
    let dateCol : Option String :=
      match df.datetimeCols with
      | c :: _ => some c
      | [] => df.columns.find? (fun c =>
          (containsSub (strLower c) "date" || containsSub (strLower c) "time") &&
            df.canParseDate c)
    match dateCol with
    | some dc =>
      if df.numericCols.length > 0 then
        (base ++ [("trend_analysis", .obj
           [("date_column", .str dc),
            ("date_range", .obj [("start", .str (df.dateRangeStart dc)),
                                 ("end", .str (df.dateRangeEnd dc))])])],
         if truthy create_visualization then
           [.image (env.chart "trends" fp) "image/png"] else [])
      else
        (base ++ [("error", .str "No suitable date and numeric columns found for trend analysis")], [])
    | Option.none =>
      (base ++ [("error", .str "No suitable date and numeric columns found for trend analysis")], [])
  else (base, [])

/-- `analyze_data` (lines 307-455): existence check, CSV parse, one of four
analysis branches (`analysisBranch`) each optionally appending a
visualization image to `results`, then
`results.insert(0, TextContent(json.dumps(analysis_result)))`.  Returns
content blocks only (it never touches the store). -/
def analyze_data (env : Env)
    (file_path analysis_type create_visualization : PyValue) :
    List ContentBlock :=
  let fp := pyStr file_path
  if ¬ env.fileExists fp then
    [.text ("File not found: " ++ fp)]
  else
    match env.csv fp with
    | .error e => [.text ("Error analyzing data: " ++ e)]
    | .ok df =>
      let branch := analysisBranch env df fp analysis_type create_visualization
      ContentBlock.text (jsonDumps (.obj branch.1)) :: branch.2

/-- `system_monitor` (lines 457-521): wall-clock-bounded sampling loop.  The
number of iterations of the real-time loop is abstracted into
`Env.sampleCount` (zero when the duration is non-positive, since the deadline
check precedes the first sample); each iteration appends a psutil round and,
when `save_metrics` is truthy, inserts a `system_metrics` row. -/
def system_monitor (env : Env) (store : Store)
    (duration_minutes interval_seconds save_metrics : PyValue) :
    List ContentBlock × Store :=
  let dm := asIntD duration_minutes
  let n := if dm ≤ 0 then 0 else env.sampleCount dm (asIntD interval_seconds)
  let rounds := env.samples.take n
  let store2 := if truthy save_metrics then
      rounds.foldl (fun st r =>
        st.insertMetric r.cpu r.memPercent r.diskPercent env.now) store
    else store
  if rounds.isEmpty then
    ([.text "No metrics collected"], store2)
  else
    let cpu := rounds.map (fun r => r.cpu)
    let mem := rounds.map (fun r => r.memPercent)
    let len : Rat := rounds.length
    let summary := Json.obj
      [("monitoring_duration_minutes", pyToJson duration_minutes),
       ("samples_collected", .num rounds.length),
       ("cpu_stats", .obj
         [("average", .rat (pyRound2 (ratSum cpu / len))),
          ("max", .rat (listMaxD cpu)), ("min", .rat (listMinD cpu))]),
       ("memory_stats", .obj
         [("average", .rat (pyRound2 (ratSum mem / len))),
          ("max", .rat (listMaxD mem)), ("min", .rat (listMinD mem))]),
       ("detailed_metrics", .arr (rounds.map (fun r => Json.obj
         [("timestamp", .str r.tsIso), ("cpu_percent", .rat r.cpu),
          ("memory_percent", .rat r.memPercent),
          ("memory_available_gb", .rat r.memAvailGb),
          ("disk_usage_percent", .rat r.diskPercent),
          ("disk_free_gb", .rat r.diskFreeGb)])))]
    ([.text (jsonDumps summary)], store2)

/-- Suffixes the search/analyze branches treat as text files (lines 552, 583). -/
def textSuffixes : List String := [".txt", ".py", ".js", ".html", ".css", ".md"]

/-- Matches of `pattern.lower() in line.lower()` over one file's lines with
1-based numbering (single-file search branch, lines 540-548; no cap). -/
def searchLines (fileLabel pattern : String) (lines : List String) : List Json :=
  ((List.enumFrom 1 lines).filter (fun nl =>
      containsSub (strLower nl.2) (strLower pattern))).map (fun nl =>
    Json.obj [("file", .str fileLabel), ("line", .num nl.1),
              ("content", .str (strTrim nl.2))])

/-- Directory-search scan of one file: append each matching line, and stop
scanning this file once the accumulated total reaches 100 (the `break` at
line 563 leaves only the inner line loop, so later files still contribute). -/
def searchFileCapped (fileLabel pattern : String) :
    List Json → List (Nat × String) → List Json
  | acc, [] => acc
  | acc, (i, line) :: rest =>
    if containsSub (strLower line) (strLower pattern) then
      let acc2 := acc ++ [Json.obj [("file", .str fileLabel), ("line", .num i),
                                    ("content", .str (strTrim line))]]
      if acc2.length ≥ 100 then acc2
      else searchFileCapped fileLabel pattern acc2 rest
    else searchFileCapped fileLabel pattern acc rest

/-- Directory search (lines 549-565): every text-suffixed file under the
recursive walk, in traversal order. -/
def searchDir (pattern : String) (entries : List FsEntry) : List Json :=
  entries.foldl (fun acc e =>
    match e with
    | .file fi =>
      if textSuffixes.contains fi.suffix then
        searchFileCapped fi.path pattern acc (List.enumFrom 1 fi.lines)
      else acc
    | .dir _ => acc) []

/-- First-occurrence-ordered counting dict for `file_types` (lines 600-603). -/
def bumpCount (m : List (String × Nat)) (k : String) : List (String × Nat) :=
  if m.any (fun kv => kv.1 == k) then
    m.map (fun kv => if kv.1 == k then (kv.1, kv.2 + 1) else kv)
  else m ++ [(k, 1)]

/-- `file_operations` (lines 523-650).  The result dict starts as
`{"operation": operation, "path": path}` (raw values) and each branch extends
it; mutating filesystem actions are returned as an effect log.  The unused
`options` parameter is accepted and ignored, as in the source. -/
def file_operations (env : Env) (operation path pattern options : PyValue) :
    List ContentBlock × List FsEffect :=
  let p := pyStr path
  let base : List (String × Json) :=
    [("operation", pyToJson operation), ("path", pyToJson path)]
  if operation = PyValue.str "search" then
    if ¬ truthy pattern then
      ([.text "Pattern required for search operation"], [])
    else
      let pat := pyStr pattern
      let found :=
        if env.isFile p then searchLines p pat (env.fileInfo p).lines
        else if env.isDir p then searchDir pat (env.rglob p)
        else []
      ([.text (jsonDumps (.obj (base ++
          [("matches", .arr (found.take 50)),
           ("total_matches", .num found.length)])))], [])
  else if operation = PyValue.str "analyze" then
    if env.isFile p then
      let fi := env.fileInfo p
      let r1 := base ++
        [("type", .str "file"), ("size_bytes", .num fi.size),
         ("size_mb", .rat (pyRound2 ((fi.size : Rat) / 1048576))),
         ("modified", .str fi.mtimeIso), ("extension", .str fi.suffix)]
      let r2 := if textSuffixes.contains fi.suffix then
          r1 ++ [("lines", .num (pySplitlines fi.content).length),
                 ("characters", .num fi.content.length),
                 ("words", .num (pyWords fi.content).length)]
        else r1
      ([.text (jsonDumps (.obj r2))], [])
    else if env.isDir p then
      let entries := env.rglob p
      let files := entries.filterMap (fun e =>
        match e with | .file fi => some fi | .dir _ => Option.none)
      let ndirs := (entries.filter (fun e =>
        match e with | .dir _ => true | .file _ => false)).length
      let fileTypes := files.foldl (fun m fi =>
        bumpCount m (if fi.suffix = "" then "no_extension" else fi.suffix)) []
      let totalSize := files.foldl (fun a fi => a + fi.size) 0
      ([.text (jsonDumps (.obj (base ++
          [("type", .str "directory"), ("total_files", .num files.length),
           ("total_directories", .num ndirs),
           ("total_size_mb", .rat (pyRound2 ((totalSize : Rat) / 1048576))),
           ("file_types", .obj (fileTypes.map (fun kv =>
              (kv.1, Json.num kv.2))))])))], [])
    else ([.text (jsonDumps (.obj base))], [])
  else if operation = PyValue.str "backup" then
    let backupPath := p ++ ".backup_" ++ env.nowStamp
    let fx := if env.isFile p then [FsEffect.copyFile p backupPath]
      else if env.isDir p then [FsEffect.copyTree p backupPath]
      else []
    ([.text (jsonDumps (.obj (base ++ [("backup_created", .str backupPath)])))], fx)
  else if operation = PyValue.str "cleanup" then
    let cleaned := if env.isDir p then
        (env.rglob p).foldl (fun acc e =>
          match e with
          | .file fi =>
            if (fi.suffix = ".tmp" ∨ fi.suffix = ".temp" ∨ fi.suffix = ".log") ∨
                strStartsWith fi.name "~" ∨ strEndsWith fi.name ".bak" then
              if env.unlinkOk fi.path then acc ++ [fi.path] else acc
            else acc
          | .dir _ => acc) []
      else []
    ([.text (jsonDumps (.obj (base ++
        [("cleaned_files", .arr (cleaned.map Json.str)),
         ("files_removed", .num cleaned.length)])))],
     cleaned.map FsEffect.unlink)
  else
    ([.text (jsonDumps (.obj base))], [])

/-- `api_integration` (lines 652-712): cache lookup for truthy-`use_cache`
GETs with cutoff `now - timedelta(hours=cache_duration_hours)`; otherwise
perform the request, build the result dict, cache it compactly when it is a
successful cacheable GET, and return the indented dump. -/
def api_integration (env : Env) (store : Store)
    (endpoint method headers data use_cache cache_duration_hours : PyValue) :
    List ContentBlock × Store :=
  let ep := pyStr endpoint
  let cutoff := env.now - 3600 * asIntD cache_duration_hours
  let cached := if truthy use_cache && method == PyValue.str "GET" then
      cacheLookup store ep cutoff
    else Option.none
  match cached with
  | some row => ([.text ("Cached response:\n" ++ row.response_data)], store)
  | Option.none =>
    let resp := env.request (pyStr method) ep
    let result : List (String × Json) :=
      [("endpoint", pyToJson endpoint), ("method", pyToJson method),
       ("status_code", .num resp.status),
       ("headers", .obj (resp.headers.map (fun kv => (kv.1, Json.str kv.2)))),
       ("response", .str resp.text),
       ("parsed_response",
         match env.parseJson resp.text with
         | some j => j
         | Option.none => .str "Not valid JSON")]
    let store2 :=
      if truthy use_cache && method == PyValue.str "GET" && resp.status == 200 then
        cacheInsert store ep (jsonDumpC (.obj result)) env.now
      else store
    ([.text (jsonDumps (.obj result))], store2)

/-- The LIMIT-injection rewrite of `database_query` (lines 720-722): append
` LIMIT {limit}` exactly when the uppercased query text does not contain the
substring `LIMIT` but does contain the substring `SELECT`. -/
def rewriteQuery (query : String) (limit : PyValue) : String :=
  if ¬ containsSub (strUpper query) "LIMIT" ∧ containsSub (strUpper query) "SELECT" then
    query ++ " LIMIT " ++ pyStr limit
  else query

/-- `database_query` (lines 714-748): rewrite, execute, then branch on
whether the (rewritten) statement starts with SELECT after stripping; reads
report columns/rows/data, writes report `rows_affected` with no data array.
The raw statement's effect on the backing database is the `Env.sql` oracle's
concern; the structured `Store` is not re-read here.  The unused `table`
parameter is accepted and ignored, as in the source. -/
def database_query (env : Env) (store : Store) (query table limit : PyValue) :
    List ContentBlock × Store :=
  let q := rewriteQuery (pyStr query) limit
  match env.sql q with
  | .error e => ([.text ("Database error: " ++ e)], store)
  | .ok out =>
    if strStartsWith (strUpper (strTrim q)) "SELECT" then
      ([.text (jsonDumps (.obj
        [("query", .str q),
         ("columns", .arr (out.columns.map Json.str)),
         ("row_count", .num out.rows.length),
         ("data", .arr (out.rows.map (fun r =>
            Json.obj (out.columns.zip r))))]))], store)
    else
      ([.text (jsonDumps (.obj
        [("query", .str q),
         ("rows_affected", .num out.rowcount),
         ("message", .str "Query executed successfully")]))], store)

/-- Per-resource statistics of the system-health report (lines 777-795):
rounded average, max, min, and a status keyed on the unrounded average. -/
structure StatBlock where
  average : Rat
  max : Rat
  min : Rat
  status : String
deriving DecidableEq, Repr

/-- Build one `*_analysis` entry from the sampled values. -/
def statBlockOf (vals : List Rat) (threshold : Rat) : StatBlock :=
  let avg := ratSum vals / (vals.length : Rat)
  ⟨pyRound2 avg, listMaxD vals, listMinD vals,
   if avg < threshold then "Good" else "Warning"⟩

/-- JSON form of a `*_analysis` entry. -/
def statBlockJson (sb : StatBlock) : Json :=
  .obj [("average", .rat sb.average), ("max", .rat sb.max),
        ("min", .rat sb.min), ("status", .str sb.status)]

/-- The markdown system-health report text (lines 798-826), with the
conditional recommendation lines keyed on the rounded averages. -/
def healthMarkdown (generatedAt : String) (cpu mem disk : StatBlock) : String :=
  "# System Health Report\nGenerated: " ++ generatedAt ++
  "\n\n## CPU Usage\n- Average: " ++ ratStr cpu.average ++ "%\n- Max: " ++
  ratStr cpu.max ++ "%\n- Min: " ++ ratStr cpu.min ++ "%\n- Status: " ++
  cpu.status ++
  "\n\n## Memory Usage\n- Average: " ++ ratStr mem.average ++ "%\n- Max: " ++
  ratStr mem.max ++ "%\n- Min: " ++ ratStr mem.min ++ "%\n- Status: " ++
  mem.status ++
  "\n\n## Disk Usage\n- Average: " ++ ratStr disk.average ++ "%\n- Max: " ++
  ratStr disk.max ++ "%\n- Min: " ++ ratStr disk.min ++ "%\n- Status: " ++
  disk.status ++ "\n\n## Recommendations\n" ++
  (if cpu.average > 80 then "- Consider investigating high CPU usage processes\n" else "") ++
  (if mem.average > 85 then "- Memory usage is high, consider closing unnecessary applications\n" else "") ++
  (if disk.average > 90 then "- Disk space is running low, consider cleanup\n" else "")

/-- The markdown web-analysis report text (lines 905-914). -/
def webMarkdown (generatedAt : String) (total : Nat) (top : List ScrapeRow) : String :=
  "# Web Scraping Analysis Report\nGenerated: " ++ generatedAt ++
  "\nTotal Scrapes: " ++ toString total ++ "\n\n## Recent Scrapes\n" ++
  String.join (top.map (fun s =>
    "- **" ++ s.title ++ "** (" ++ s.url ++ ")\n  - Content Length: " ++
    toString s.content.length ++ " characters\n  - Scraped: " ++
    toString s.scraped_at ++ "\n\n"))

/-- The markdown data-summary report text (lines 940-950). -/
def summaryMarkdown (generatedAt : String) (nScrapes nMetrics nCache : Nat)
    (dbPath : String) : String :=
  "# Data Summary Report\nGenerated: " ++ generatedAt ++
  "\n\n## Database Statistics\n- Web Scrapes: " ++ toString nScrapes ++
  " records\n- System Metrics: " ++ toString nMetrics ++
  " records  \n- API Cache: " ++ toString nCache ++
  " records\n\n## Database Location\n" ++ dbPath ++ "\n"

/-- `generate_report` (lines 750-959): three report branches reading the
store; an unrecognized `report_type` falls through every branch and returns
the empty `results` list.  Returns content blocks only (read-only on the
store). -/
def generate_report (env : Env) (store : Store)
    (report_type format include_charts : PyValue) : List ContentBlock :=
  if report_type = PyValue.str "system_health" then
    let metrics := (sortDescBy (fun m => m.recorded_at) store.system_metrics).take 100
    if metrics.isEmpty then
      [.text "No system metrics available for report"]
    else
      let cpu := statBlockOf (metrics.map (fun m => m.cpu_percent)) 80
      let mem := statBlockOf (metrics.map (fun m => m.memory_percent)) 85
      let disk := statBlockOf (metrics.map (fun m => m.disk_usage)) 90
      let textBlock : ContentBlock :=
        if format = PyValue.str "markdown" then
          .text (healthMarkdown env.nowIso cpu mem disk)
        else
          .text (jsonDumps (.obj
            [("report_type", .str "System Health Report"),
             ("generated_at", .str env.nowIso),
             ("metrics_analyzed", .num metrics.length),
             ("cpu_analysis", statBlockJson cpu),
             ("memory_analysis", statBlockJson mem),
             ("disk_analysis", statBlockJson disk)]))
      textBlock :: (if truthy include_charts then
        [.image (env.chart "system_health" "") "image/png"] else [])
  else if report_type = PyValue.str "web_analysis" then
    let scrapes := (sortDescBy (fun s => s.scraped_at) store.web_scrapes).take 50
    if scrapes.isEmpty then
      [.text "No web scraping data available for report"]
    else if format = PyValue.str "markdown" then
      [.text (webMarkdown env.nowIso scrapes.length (scrapes.take 10))]
    else
      [.text (jsonDumps (.obj
        [("report_type", .str "Web Scraping Analysis"),
         ("generated_at", .str env.nowIso),
         ("total_scrapes", .num scrapes.length),
         ("scrapes", .arr (scrapes.map (fun s => Json.obj
           [("url", .str s.url), ("title", .str s.title),
            ("content_length", .num s.content.length),
            ("scraped_at", .num s.scraped_at)])))]))]
  else if report_type = PyValue.str "data_summary" then
    if format = PyValue.str "markdown" then
      [.text (summaryMarkdown env.nowIso store.web_scrapes.length
        store.system_metrics.length store.api_cache.length env.dbPath)]
    else
      [.text (jsonDumps (.obj
        [("report_type", .str "Data Summary Report"),
         ("generated_at", .str env.nowIso),
         ("database_path", .str env.dbPath),
         ("web_scrapes_count", .num store.web_scrapes.length),
         ("system_metrics_count", .num store.system_metrics.length),
         ("api_cache_count", .num store.api_cache.length)]))]
  else []

/-- Declared parameters of `scrape_website` (signature, line 236-237). -/
def scrapeParams : ParamSpec :=
  [("url", Option.none), ("extract_links", some (PyValue.bool false)),
   ("extract_images", some (PyValue.bool false)),
   ("save_to_db", some (PyValue.bool true))]

/-- Declared parameters of `analyze_data` (signature, line 307-308). -/
def analyzeParams : ParamSpec :=
  [("file_path", Option.none), ("analysis_type", Option.none),
   ("create_visualization", some (PyValue.bool true))]

/-- Declared parameters of `system_monitor` (signature, line 457-458). -/
def monitorParams : ParamSpec :=
  [("duration_minutes", some (PyValue.int 1)),
   ("interval_seconds", some (PyValue.int 10)),
   ("save_metrics", some (PyValue.bool true))]

/-- Declared parameters of `file_operations` (signature, line 523-524). -/
def fileOpsParams : ParamSpec :=
  [("operation", Option.none), ("path", Option.none),
   ("pattern", some PyValue.none), ("options", some PyValue.none)]

/-- Declared parameters of `api_integration` (signature, lines 652-654). -/
def apiParams : ParamSpec :=
  [("endpoint", Option.none), ("method", some (PyValue.str "GET")),
   ("headers", some PyValue.none), ("data", some PyValue.none),
   ("use_cache", some (PyValue.bool true)),
   ("cache_duration_hours", some (PyValue.int 1))]

/-- Declared parameters of `database_query` (signature, line 714). -/
def dbParams : ParamSpec :=
  [("query", Option.none), ("table", some PyValue.none),
   ("limit", some (PyValue.int 100))]

/-- Declared parameters of `generate_report` (signature, lines 750-751). -/
def reportParams : ParamSpec :=
  [("report_type", Option.none), ("format", some (PyValue.str "markdown")),
   ("include_charts", some (PyValue.bool true))]

/-- The seven registered tool names, in registration (and dispatch-test)
order. -/
def registeredTools : List String :=
  ["scrape_website", "analyze_data", "system_monitor", "file_operations",
   "api_integration", "database_query", "generate_report"]

/-- Declared parameter names of each registered tool (the input-schema
property names coincide with the handler signatures for all seven tools). -/
def paramNames (name : String) : List String :=
  if name = "scrape_website" then scrapeParams.map (fun p => p.1)
  else if name = "analyze_data" then analyzeParams.map (fun p => p.1)
  else if name = "system_monitor" then monitorParams.map (fun p => p.1)
  else if name = "file_operations" then fileOpsParams.map (fun p => p.1)
  else if name = "api_integration" then apiParams.map (fun p => p.1)
  else if name = "database_query" then dbParams.map (fun p => p.1)
  else if name = "generate_report" then reportParams.map (fun p => p.1)
  else []

/-- The body of `handle_call_tool`'s `try` block (lines 215-231): the
name-keyed elif chain, each arm binding `**arguments` against the handler's
signature and invoking it; an unmatched name raises
`ValueError(f"Unknown tool: {name}")`.  The `Except` error channel carries
exactly the exceptions that reach the dispatcher's `except`. -/
def dispatchInner (env : Env) (store : Store) (name : String)
    (args : List (String × PyValue)) : Except String (List ContentBlock × Store) :=
  if name = "scrape_website" then
    match bindError "scrape_website" scrapeParams args with
    | some e => .error e
    | Option.none => .ok (scrape_website env store
        (getArg args "url" PyValue.none)
        (getArg args "extract_links" (PyValue.bool false))
        (getArg args "extract_images" (PyValue.bool false))
        (getArg args "save_to_db" (PyValue.bool true)))
  else if name = "analyze_data" then
    match bindError "analyze_data" analyzeParams args with
    | some e => .error e
    | Option.none => .ok (analyze_data env
        (getArg args "file_path" PyValue.none)
        (getArg args "analysis_type" PyValue.none)
        (getArg args "create_visualization" (PyValue.bool true)), store)
  else if name = "system_monitor" then
    match bindError "system_monitor" monitorParams args with
    | some e => .error e
    | Option.none => .ok (system_monitor env store
        (getArg args "duration_minutes" (PyValue.int 1))
        (getArg args "interval_seconds" (PyValue.int 10))
        (getArg args "save_metrics" (PyValue.bool true)))
  else if name = "file_operations" then
    match bindError "file_operations" fileOpsParams args with
    | some e => .error e
    | Option.none => .ok ((file_operations env
        (getArg args "operation" PyValue.none)
        (getArg args "path" PyValue.none)
        (getArg args "pattern" PyValue.none)
        (getArg args "options" PyValue.none)).1, store)
  else if name = "api_integration" then
    match bindError "api_integration" apiParams args with
    | some e => .error e
    | Option.none => .ok (api_integration env store
        (getArg args "endpoint" PyValue.none)
        (getArg args "method" (PyValue.str "GET"))
        (getArg args "headers" PyValue.none)
        (getArg args "data" PyValue.none)
        (getArg args "use_cache" (PyValue.bool true))
        (getArg args "cache_duration_hours" (PyValue.int 1)))
  else if name = "database_query" then
    match bindError "database_query" dbParams args with
    | some e => .error e
    | Option.none => .ok (database_query env store
        (getArg args "query" PyValue.none)
        (getArg args "table" PyValue.none)
        (getArg args "limit" (PyValue.int 100)))
  else if name = "generate_report" then
    match bindError "generate_report" reportParams args with
    | some e => .error e
    | Option.none => .ok (generate_report env store
        (getArg args "report_type" PyValue.none)
        (getArg args "format" (PyValue.str "markdown"))
        (getArg args "include_charts" (PyValue.bool true)), store)
  else .error ("Unknown tool: " ++ name)

/-- `handle_call_tool` (lines 213-234): run the dispatch body; any exception
is caught at this boundary and becomes the single Text block
`"Error: <message>"`.  Total by construction — nothing propagates to the
transport. -/
def handle_call_tool (env : Env) (store : Store) (name : String)
    (args : List (String × PyValue)) : List ContentBlock × Store :=
  match dispatchInner env store name args with
  | .ok r => r
  | .error e => ([.text ("Error: " ++ e)], store)

/-- The empty store, as after `init_database` on a fresh temp file. -/
def store0 : Store := ⟨[], [], []⟩

/-- A fixed page for the witness environment. -/
def page0 : PageData :=
  ⟨200, some "T", "hello world", [], []⟩

/-- A fixed SQL outcome for the witness environment. -/
def sqlOut0 : SqlOutcome := ⟨[], [], 1⟩

/-- A concrete environment for witnesses and counterexamples: every oracle is
constant, the clock reads 0. -/
def env0 : Env where
  page := fun _ => page0
  request := fun _ _ => ⟨200, "ok", []⟩
  parseJson := fun _ => Option.none
  sql := fun _ => .ok sqlOut0
  now := 0
  nowIso := "1970-01-01T00:00:00"
  nowStamp := "19700101_000000"
  dbPath := "/tmp/db"
  fileExists := fun _ => false
  csv := fun _ => .error "no csv"
  chart := fun _ _ => []
  isFile := fun _ => false
  isDir := fun _ => false
  fileInfo := fun p => ⟨p, p, "", 0, "", "", []⟩
  rglob := fun _ => []
  unlinkOk := fun _ => true
  samples := []
  sampleCount := fun _ _ => 0

/-- A witness environment whose every fetch is a 404. -/
def env404 : Env := { env0 with page := fun _ => ⟨404, Option.none, "", [], []⟩ }

/-- SQL identifier characters, for the spec-side reading of "explicit row
cap". -/
def isIdentChar (c : Char) : Bool := c.isAlphanum || c == '_'

/-- The words of an SQL text, uppercased (identifier runs between
non-identifier characters). -/
def sqlWords (q : String) : List String :=
  (strSplitBy (fun c => ! isIdentChar c) (strUpper q)).filter (fun w => w ≠ "")

/-- Spec-side reading of "the statement has an explicit row cap": `LIMIT`
occurs as a standalone word of the statement text.  (The source instead
tests for `LIMIT` as a bare substring of the uppercased text.) -/
def hasLimitClause (q : String) : Bool := (sqlWords q).contains "LIMIT"

/-- `find?` skips a block in which the predicate never holds. -/
theorem find?_append_of_none {α : Type} (p : α → Bool) (l1 l2 : List α)
    (h : ∀ x ∈ l1, p x = false) :
    List.find? p (l1 ++ l2) = List.find? p l2 := by
  induction l1 with
  | nil => rfl
  | cons a t ih =>
    rw [List.cons_append, List.find?_cons_of_neg _ (by simp [h a])]
    exact ih (fun x hx => h x (by simp [hx]))

/-- C1.  For every tool name and raw argument bag, `handle_call_tool` is a
total function into content-block sequences — no exception channel remains in
its type, so nothing propagates to the transport — and whenever the dispatch
body faults (binder `TypeError`, unknown-tool `ValueError`; handler bodies
catch their own faults in the source), the result is exactly one Text block
`"Error: <message>"` with the store untouched. -/
theorem handle_call_tool_total_error_wrapped (env : Env) (store : Store)
    (name : String) (args : List (String × PyValue)) :
    (∃ out, dispatchInner env store name args = .ok out ∧
       handle_call_tool env store name args = out) ∨
    (∃ msg, dispatchInner env store name args = .error msg ∧
       handle_call_tool env store name args =
         ([ContentBlock.text ("Error: " ++ msg)], store)) := by
  cases h : dispatchInner env store name args with
  | error e => exact Or.inr ⟨e, rfl, by simp [handle_call_tool, h]⟩
  | ok r => exact Or.inl ⟨r, rfl, by simp [handle_call_tool, h]⟩

/-- C2 counterexample.  Dispatching an unregistered name does not return the
bare text `"Unknown tool: <name>"`: the internally raised `ValueError` is
caught by the blanket handler, which prefixes `"Error: "`. -/
theorem unknown_tool_bare_text_refuted :
    handle_call_tool env0 store0 "no_such_tool" [] ≠
      ([ContentBlock.text "Unknown tool: no_such_tool"], store0) := by
  decide

/-- C2 amended.  For every name not among the seven registered tools,
dispatching it with any argument bag returns exactly one Text block
`"Error: Unknown tool: <name>"`, as a normal return value of the dispatcher
rather than a propagated fault. -/
theorem unknown_tool_error_block (env : Env) (store : Store) (name : String)
    (args : List (String × PyValue)) (h : name ∉ registeredTools) :
    handle_call_tool env store name args =
      ([ContentBlock.text ("Error: Unknown tool: " ++ name)], store) := by
  simp only [registeredTools, List.mem_cons, List.not_mem_nil, or_false] at h
  push_neg at h
  obtain ⟨h1, h2, h3, h4, h5, h6, h7⟩ := h
  simp only [handle_call_tool, dispatchInner, h1, h2, h3, h4, h5, h6, h7,
    if_false, ite_false]
  rw [← String.append_assoc]
  rfl

/-- C2 amended, witness at the spec's own probe input. -/
theorem unknown_tool_error_block_witness :
    handle_call_tool env0 store0 "no_such_tool" [] =
      ([ContentBlock.text ("Error: Unknown tool: " ++ "no_such_tool")], store0) :=
  unknown_tool_error_block env0 store0 "no_such_tool" [] (by decide)

/-- C3 counterexample.  Adding the undeclared field `bogus` to an otherwise
valid `file_operations` call changes the returned content blocks: the call
with the extra field yields an unexpected-keyword-argument error instead of
the echo result of the call without it. -/
theorem unknown_field_changes_result :
    handle_call_tool env0 store0 "file_operations"
      [("operation", PyValue.str "compare"), ("path", PyValue.str "/tmp/a")] ≠
    handle_call_tool env0 store0 "file_operations"
      [("operation", PyValue.str "compare"), ("path", PyValue.str "/tmp/a"),
       ("bogus", PyValue.int 1)] := by
  decide

/-- C3 amended.  For every registered tool, a raw argument bag containing a
field not declared in that tool's input schema is an error, not ignored: the
call returns exactly one Text block
`"Error: <tool>() got an unexpected keyword argument '<field>'"` (naming the
first undeclared field of the bag), the handler body never runs, and the
store is unchanged. -/
theorem unknown_field_rejected (env : Env) (store : Store) (name k : String)
    (args : List (String × PyValue))
    (h1 : name ∈ registeredTools)
    (h2 : findUnexpected (paramNames name) args = some k) :
    handle_call_tool env store name args =
      ([ContentBlock.text ("Error: " ++ unexpectedKwMsg name k)], store) := by
  fin_cases h1 <;>
    simp [paramNames, scrapeParams, analyzeParams, monitorParams, fileOpsParams,
      apiParams, dbParams, reportParams] at h2 <;>
    simp [handle_call_tool, dispatchInner, bindError, scrapeParams, analyzeParams,
      monitorParams, fileOpsParams, apiParams, dbParams, reportParams, h2]

/-- C3 amended, witness: `database_query` with an extra field `extra`. -/
theorem unknown_field_rejected_witness :
    handle_call_tool env0 store0 "database_query"
      [("query", PyValue.str "SELECT 1"), ("extra", PyValue.int 7)] =
      ([ContentBlock.text ("Error: " ++ unexpectedKwMsg "database_query" "extra")],
       store0) :=
  unknown_field_rejected env0 store0 "database_query" "extra"
    [("query", PyValue.str "SELECT 1"), ("extra", PyValue.int 7)]
    (by decide) (by decide)

/-- C4.  Dispatching `analyze_data` with a raw argument bag drawn from the
declared schema fields but missing a required field returns exactly one Text
block whose message lists the missing required fields in schema declaration
order (so it names the first missing field), produced deterministically by
the dispatcher's catch — no exception escapes. -/
theorem analyze_data_missing_field_reported (env : Env) (store : Store)
    (args : List (String × PyValue))
    (hdecl : ∀ kv ∈ args, kv.1 ∈ paramNames "analyze_data")
    (hmiss : hasKey args "file_path" = false ∨ hasKey args "analysis_type" = false) :
    ∃ f rest,
      missingRequired analyzeParams args = f :: rest ∧
      (f = "file_path" ∨ (f = "analysis_type" ∧ hasKey args "file_path" = true)) ∧
      handle_call_tool env store "analyze_data" args =
        ([ContentBlock.text ("Error: " ++ missingArgsMsg "analyze_data" (f :: rest))],
         store) ∧
      containsSub (missingArgsMsg "analyze_data" (f :: rest)) ("'" ++ f ++ "'") = true := by
  have hcontains : ∀ kv ∈ args,
      (analyzeParams.map (fun p => p.1)).contains kv.1 = true := by
    intro kv hkv
    have h := hdecl kv hkv
    have hn : paramNames "analyze_data" =
        ["file_path", "analysis_type", "create_visualization"] := by rfl
    rw [hn] at h
    have hmp : analyzeParams.map (fun p => p.1) =
        ["file_path", "analysis_type", "create_visualization"] := by rfl
    rw [hmp]
    simp only [List.mem_cons, List.not_mem_nil, or_false] at h
    rcases h with h | h | h <;> simp [h]
  have hne : findUnexpected (analyzeParams.map (fun p => p.1)) args = Option.none := by
    simp only [findUnexpected]
    rw [List.find?_eq_none.mpr ?_]
    · rfl
    · intro kv hkv
      simp only [hcontains kv hkv]
      simp
  have hm : missingRequired analyzeParams args =
      (if hasKey args "file_path" then [] else ["file_path"]) ++
      (if hasKey args "analysis_type" then [] else ["analysis_type"]) := by
    cases hfp : hasKey args "file_path" <;> cases hat : hasKey args "analysis_type" <;>
      simp [missingRequired, analyzeParams, hfp, hat]
  rcases Bool.eq_false_or_eq_true (hasKey args "file_path") with hfp | hfp <;>
    rcases Bool.eq_false_or_eq_true (hasKey args "analysis_type") with hat | hat <;>
    rw [hfp, hat] at hm <;> simp at hm
  · rcases hmiss with h | h
    · rw [hfp] at h; exact absurd h (by simp)
    · rw [hat] at h; exact absurd h (by simp)
  · exact ⟨"analysis_type", [], hm, Or.inr ⟨rfl, hfp⟩,
      by simp [handle_call_tool, dispatchInner, bindError, hne, hm], by decide⟩
  · exact ⟨"file_path", [], hm, Or.inl rfl,
      by simp [handle_call_tool, dispatchInner, bindError, hne, hm], by decide⟩
  · exact ⟨"file_path", ["analysis_type"], hm, Or.inl rfl,
      by simp [handle_call_tool, dispatchInner, bindError, hne, hm], by decide⟩

/-- C4 witness: a bag providing only `analysis_type`. -/
theorem analyze_data_missing_field_reported_witness :
    ∃ f rest,
      missingRequired analyzeParams [("analysis_type", PyValue.str "summary")] = f :: rest ∧
      (f = "file_path" ∨ (f = "analysis_type" ∧
        hasKey [("analysis_type", PyValue.str "summary")] "file_path" = true)) ∧
      handle_call_tool env0 store0 "analyze_data" [("analysis_type", PyValue.str "summary")] =
        ([ContentBlock.text ("Error: " ++ missingArgsMsg "analyze_data" (f :: rest))],
         store0) ∧
      containsSub (missingArgsMsg "analyze_data" (f :: rest)) ("'" ++ f ++ "'") = true :=
  analyze_data_missing_field_reported env0 store0
    [("analysis_type", PyValue.str "summary")] (by decide) (Or.inl (by decide))

/-- C5 counterexample.  A read statement (it starts with SELECT) with no
explicit row cap (`LIMIT` does not occur as a word of the statement) is
executed unchanged — no cap is appended — because the source tests for
`LIMIT` only as a bare substring of the uppercased text, and here the
substring occurs inside the identifier `limit_col`. -/
theorem limit_cap_refuted :
    strStartsWith (strUpper (strTrim "SELECT id AS limit_col FROM web_scrapes")) "SELECT" = true ∧
    hasLimitClause "SELECT id AS limit_col FROM web_scrapes" = false ∧
    rewriteQuery "SELECT id AS limit_col FROM web_scrapes" (PyValue.int 100) =
      "SELECT id AS limit_col FROM web_scrapes" ∧
    rewriteQuery "SELECT id AS limit_col FROM web_scrapes" (PyValue.int 100) ≠
      "SELECT id AS limit_col FROM web_scrapes" ++ " LIMIT " ++ pyStr (PyValue.int 100) := by
  decide

/-- C5 amended.  The cap is keyed on substrings, not on statement kind or an
actual cap clause: ` LIMIT <limit>` is appended exactly when the uppercased
query text contains `SELECT` and does not contain the substring `LIMIT`; and
every executed statement that does not begin with SELECT (stripped,
case-insensitively) reports an affected-row count and no data array. -/
theorem database_query_cap_and_write_shape (env : Env) (store : Store)
    (query table limit : PyValue) (out : SqlOutcome) :
    (containsSub (strUpper (pyStr query)) "LIMIT" = false →
     containsSub (strUpper (pyStr query)) "SELECT" = true →
     rewriteQuery (pyStr query) limit = pyStr query ++ " LIMIT " ++ pyStr limit) ∧
    (env.sql (rewriteQuery (pyStr query) limit) = .ok out →
     strStartsWith (strUpper (strTrim (rewriteQuery (pyStr query) limit))) "SELECT" = false →
     database_query env store query table limit =
       ([ContentBlock.text (jsonDumps (.obj
          [("query", .str (rewriteQuery (pyStr query) limit)),
           ("rows_affected", .num out.rowcount),
           ("message", .str "Query executed successfully")]))], store)) := by
  constructor
  · intro hl hs
    simp [rewriteQuery, hl, hs]
  · intro hsql hw
    simp [database_query, hsql, hw]

/-- C5 amended, witness: an INSERT ... SELECT statement gets the cap appended
(it contains `SELECT` and no `LIMIT` substring) and, being a write statement,
reports `rows_affected` with no data array. -/
theorem database_query_cap_and_write_shape_witness :
    (rewriteQuery (pyStr (PyValue.str "INSERT INTO web_scrapes (url) SELECT url FROM web_scrapes")) (PyValue.int 100) =
      pyStr (PyValue.str "INSERT INTO web_scrapes (url) SELECT url FROM web_scrapes") ++
        " LIMIT " ++ pyStr (PyValue.int 100)) ∧
    (database_query env0 store0
        (PyValue.str "INSERT INTO web_scrapes (url) SELECT url FROM web_scrapes")
        PyValue.none (PyValue.int 100) =
      ([ContentBlock.text (jsonDumps (.obj
         [("query", .str (rewriteQuery (pyStr (PyValue.str "INSERT INTO web_scrapes (url) SELECT url FROM web_scrapes")) (PyValue.int 100))),
          ("rows_affected", .num sqlOut0.rowcount),
          ("message", .str "Query executed successfully")]))], store0)) := by
  have h := database_query_cap_and_write_shape env0 store0
    (PyValue.str "INSERT INTO web_scrapes (url) SELECT url FROM web_scrapes")
    PyValue.none (PyValue.int 100) sqlOut0
  exact ⟨h.1 (by decide) (by decide), h.2 rfl (by decide)⟩

/-- C6.  Cache roundtrip over the store operations of `api_integration`: with
no pre-existing row for endpoint `ep`, after inserting a cache entry at time
`t`, a fresh-lookup with cutoff `now - 3600*hours` returns exactly that entry
when performed before the TTL elapses, and returns nothing when performed
after the TTL elapses — although the inserted row still physically remains in
the `api_cache` table. -/
theorem cache_roundtrip (store : Store) (ep payload : String) (t now hours : Int)
    (hclean : ∀ r ∈ store.api_cache, r.endpoint ≠ ep) :
    (now - 3600 * hours < t →
       cacheLookup (cacheInsert store ep payload t) ep (now - 3600 * hours) =
         some ⟨store.api_cache.length + 1, ep, payload, t⟩) ∧
    (t < now - 3600 * hours →
       cacheLookup (cacheInsert store ep payload t) ep (now - 3600 * hours) =
         Option.none ∧
       (⟨store.api_cache.length + 1, ep, payload, t⟩ : CacheRow) ∈
         (cacheInsert store ep payload t).api_cache) := by
  have hskip : List.find?
      (fun r : CacheRow => r.endpoint == ep && decide (now - 3600 * hours < r.cached_at))
      ((cacheInsert store ep payload t).api_cache) =
      List.find? (fun r : CacheRow => r.endpoint == ep && decide (now - 3600 * hours < r.cached_at))
        [⟨store.api_cache.length + 1, ep, payload, t⟩] := by
    simp only [cacheInsert]
    exact find?_append_of_none _ _ _ (fun r hr => by
      simp [hclean r hr])
  constructor
  · intro hfresh
    simp only [cacheLookup, hskip]
    simp [hfresh]
  · intro hstale
    constructor
    · simp only [cacheLookup, hskip]
      have : ¬ (now - 3600 * hours < t) := by omega
      simp [this]
    · simp [cacheInsert]

/-- C6 witness: insert at time 1000 with a 2-hour TTL; a lookup at time 5000
(before expiry) returns the row, a lookup at time 20000 (after expiry)
returns nothing. -/
theorem cache_roundtrip_witness :
    cacheLookup (cacheInsert store0 "https://api.example.com/x" "payload" 1000)
        "https://api.example.com/x" (5000 - 3600 * 2) =
      some ⟨1, "https://api.example.com/x", "payload", 1000⟩ ∧
    cacheLookup (cacheInsert store0 "https://api.example.com/x" "payload" 1000)
        "https://api.example.com/x" (20000 - 3600 * 2) = Option.none :=
  ⟨(cache_roundtrip store0 "https://api.example.com/x" "payload" 1000 5000 2
      (by simp [store0])).1 (by decide),
   ((cache_roundtrip store0 "https://api.example.com/x" "payload" 1000 20000 2
      (by simp [store0])).2 (by decide)).1⟩

/-- C7.  With zero `system_metrics` rows in the store, the `system_health`
report is a single Text block saying no metrics are available, and contains
no Image block even when `include_charts` is truthy (for any format). -/
theorem system_health_empty_store (env : Env) (store : Store)
    (format include_charts : PyValue)
    (h : store.system_metrics = []) :
    generate_report env store (PyValue.str "system_health") format include_charts =
      [ContentBlock.text "No system metrics available for report"] := by
  simp [generate_report, h, sortDescBy]

/-- C7 witness at the empty store with `include_charts = True`. -/
theorem system_health_empty_store_witness :
    generate_report env0 store0 (PyValue.str "system_health") (PyValue.str "markdown")
        (PyValue.bool true) =
      [ContentBlock.text "No system metrics available for report"] :=
  system_health_empty_store env0 store0 (PyValue.str "markdown") (PyValue.bool true) rfl

/-- C8.  Every `analyze_data` invocation returns the textual summary as the
first content block with every Image block strictly after it: the handler
accumulates visualizations in `results` and inserts the Text block at
position 0 before returning (error paths return a lone Text block). -/
theorem analyze_data_text_before_images (env : Env)
    (file_path analysis_type create_visualization : PyValue) :
    ∃ s imgs,
      analyze_data env file_path analysis_type create_visualization =
        ContentBlock.text s :: imgs ∧
      ∀ b ∈ imgs, ∃ d m, b = ContentBlock.image d m := by
  by_cases hf : env.fileExists (pyStr file_path)
  · cases hcsv : env.csv (pyStr file_path) with
    | error e =>
      exact ⟨"Error analyzing data: " ++ e, [], by simp [analyze_data, hf, hcsv], by simp⟩
    | ok df =>
      refine ⟨jsonDumps (.obj (analysisBranch env df (pyStr file_path)
          analysis_type create_visualization).1),
        (analysisBranch env df (pyStr file_path) analysis_type create_visualization).2,
        by simp [analyze_data, hf, hcsv], ?_⟩
      intro b hb
      simp only [analysisBranch] at hb
      repeat' split at hb
      all_goals simp_all
  · exact ⟨"File not found: " ++ pyStr file_path, [], by simp [analyze_data, hf], by simp⟩

/-- C9.  When the HTTP fetch returns a status other than 200,
`scrape_website` returns the single failure Text block and performs no store
write — even when `save_to_db` is truthy, the returned store is exactly the
input store. -/
theorem scrape_non200_no_write (env : Env) (store : Store) (u : String)
    (extract_links extract_images save_to_db : PyValue)
    (h : (env.page u).status ≠ 200) :
    scrape_website env store (PyValue.str u) extract_links extract_images save_to_db =
      ([ContentBlock.text ("Failed to fetch " ++ u ++ ": HTTP " ++
         toString (env.page u).status)], store) := by
  simp [scrape_website, pyStr, h]

/-- C9 witness: a 404 environment with `save_to_db = True`. -/
theorem scrape_non200_no_write_witness :
    scrape_website env404 store0 (PyValue.str "http://example.com") PyValue.none
        PyValue.none (PyValue.bool true) =
      ([ContentBlock.text ("Failed to fetch " ++ "http://example.com" ++ ": HTTP " ++
         toString (env404.page "http://example.com").status)], store0) :=
  scrape_non200_no_write env404 store0 "http://example.com" PyValue.none
    PyValue.none (PyValue.bool true) (by decide)

/-- C10.  `file_operations` with `operation="compare"` (a value the declared
enum accepts) falls through every implemented branch: it performs no
filesystem action (empty effect log) and reports no error — the single Text
block is the JSON echo of exactly the `operation` and `path` fields. -/
theorem file_operations_compare_silent_noop (env : Env)
    (path pattern options : PyValue) :
    file_operations env (PyValue.str "compare") path pattern options =
      ([ContentBlock.text (jsonDumps (Json.obj
         [("operation", Json.str "compare"), ("path", pyToJson path)]))],
       ([] : List FsEffect)) := by
  simp [file_operations, pyToJson]
